import Mathlib

/-!
Verification of the worker agent (`worker.js`): shallow embedding of the
task dispatcher, the logic-module loader, the version-sync handlers and
the heartbeat timers, together with proofs of the specified properties.
-/

namespace Worker

/-- JavaScript runtime values, as far as the dispatcher observes them:
undefined, null, booleans, (natural) numbers, strings, arrays and objects. -/
inductive JSVal where
  | vUndefined : JSVal
  | vNull : JSVal
  | vBool (b : Bool) : JSVal
  | vNum (n : Nat) : JSVal
  | vStr (s : String) : JSVal
  | vArr (elems : List JSVal) : JSVal
  | vObj (fields : List (String × JSVal)) : JSVal
deriving Repr

/-- Property lookup `v.k`: on objects the first binding for the key,
`undefined` otherwise (JS member access on a non-object primitive either
yields `undefined` or throws; the dispatcher only reads fields of objects). -/
def JSVal.prop (v : JSVal) (k : String) : JSVal :=
  match v with
  | .vObj fields => (List.lookup k fields).getD .vUndefined
  | _ => .vUndefined

/-- JS truthiness: `undefined`, `null`, `false`, `0` and `""` are falsy;
every other value (including any array or object) is truthy. -/
def JSVal.truthy : JSVal → Bool
  | .vUndefined => false
  | .vNull => false
  | .vBool b => b
  | .vNum n => n != 0
  | .vStr s => s != ""
  | .vArr _ => true
  | .vObj _ => true

/-- JS string coercion as used by the `+` operator in
`"Login Failed: " + authInv.message`. -/
def JSVal.toStr : JSVal → String
  | .vUndefined => "undefined"
  | .vNull => "null"
  | .vBool b => if b then "true" else "false"
  | .vNum n => toString n
  | .vStr s => s
  | .vArr _ => ""
  | .vObj _ => "[object Object]"

/-- The JS `||` operator: the left operand when truthy, else the right. -/
def jsOr (a b : JSVal) : JSVal :=
  if a.truthy then a else b

/-- The JS `.length` read: array length, string length, else `undefined`. -/
def JSVal.lengthVal : JSVal → JSVal
  | .vArr xs => .vNum xs.length
  | .vStr s => .vNum s.length
  | _ => .vUndefined

/-! ### MD5 (`crypto.createHash('md5')` over the logic file's bytes)

A byte is a `Nat` below 256; 32-bit words are `Nat`s reduced mod 2^32. -/

namespace MD5

/-- Per-round shift amounts of MD5. -/
def S : List Nat :=
  [7, 12, 17, 22, 7, 12, 17, 22, 7, 12, 17, 22, 7, 12, 17, 22,
   5, 9, 14, 20, 5, 9, 14, 20, 5, 9, 14, 20, 5, 9, 14, 20,
   4, 11, 16, 23, 4, 11, 16, 23, 4, 11, 16, 23, 4, 11, 16, 23,
   6, 10, 15, 21, 6, 10, 15, 21, 6, 10, 15, 21, 6, 10, 15, 21]

/-- Per-round additive constants of MD5 (⌊|sin(i+1)|·2^32⌋). -/
def K : List Nat :=
  [0xd76aa478, 0xe8c7b756, 0x242070db, 0xc1bdceee,
   0xf57c0faf, 0x4787c62a, 0xa8304613, 0xfd469501,
   0x698098d8, 0x8b44f7af, 0xffff5bb1, 0x895cd7be,
   0x6b901122, 0xfd987193, 0xa679438e, 0x49b40821,
   0xf61e2562, 0xc040b340, 0x265e5a51, 0xe9b6c7aa,
   0xd62f105d, 0x02441453, 0xd8a1e681, 0xe7d3fbc8,
   0x21e1cde6, 0xc33707d6, 0xf4d50d87, 0x455a14ed,
   0xa9e3e905, 0xfcefa3f8, 0x676f02d9, 0x8d2a4c8a,
   0xfffa3942, 0x8771f681, 0x6d9d6122, 0xfde5380c,
   0xa4beea44, 0x4bdecfa9, 0xf6bb4b60, 0xbebfbc70,
   0x289b7ec6, 0xeaa127fa, 0xd4ef3085, 0x04881d05,
   0xd9d4d039, 0xe6db99e5, 0x1fa27cf8, 0xc4ac5665,
   0xf4292244, 0x432aff97, 0xab9423a7, 0xfc93a039,
   0x655b59c3, 0x8f0ccc92, 0xffeff47d, 0x85845dd1,
   0x6fa87e4f, 0xfe2ce6e0, 0xa3014314, 0x4e0811a1,
   0xf7537e82, 0xbd3af235, 0x2ad7d2bb, 0xeb86d391]

def add32 (a b : Nat) : Nat := (a + b) % 4294967296

def not32 (a : Nat) : Nat := Nat.xor (a % 4294967296) 4294967295

def rotl32 (x n : Nat) : Nat :=
  (((x % 4294967296) <<< n) ||| ((x % 4294967296) >>> (32 - n))) % 4294967296

/-- MD5 padding: `0x80`, zeros up to 56 mod 64, then the 64-bit
little-endian bit length of the original message. -/
def pad (msg : List Nat) : List Nat :=
  let bitLen := (8 * msg.length) % 18446744073709551616
  let zeros := (120 - ((msg.length + 1) % 64)) % 64
  msg ++ [0x80] ++ List.replicate zeros 0 ++
    (List.range 8).map (fun i => (bitLen >>> (8 * i)) % 256)

/-- The sixteen little-endian 32-bit words of one 64-byte chunk. -/
def wordAt (chunk : List Nat) (j : Nat) : Nat :=
  chunk.getD (4 * j) 0 + 256 * chunk.getD (4 * j + 1) 0 +
    65536 * chunk.getD (4 * j + 2) 0 + 16777216 * chunk.getD (4 * j + 3) 0

/-- One MD5 round: round index `i`, message words via `chunk`. -/
def step (chunk : List Nat) (st : Nat × Nat × Nat × Nat) (i : Nat) :
    Nat × Nat × Nat × Nat :=
  let a := st.1
  let b := st.2.1
  let c := st.2.2.1
  let d := st.2.2.2
  let fg : Nat × Nat :=
    if i < 16 then ((b &&& c) ||| (not32 b &&& d), i)
    else if i < 32 then ((d &&& b) ||| (not32 d &&& c), (5 * i + 1) % 16)
    else if i < 48 then (Nat.xor (Nat.xor b c) d, (3 * i + 5) % 16)
    else (Nat.xor c (b ||| not32 d), (7 * i) % 16)
  let t := (fg.1 + a + K.getD i 0 + wordAt chunk fg.2) % 4294967296
  (d, add32 b (rotl32 t (S.getD i 0)), b, c)

/-- Process one 64-byte chunk, adding the round output into the state. -/
def processChunk (st : Nat × Nat × Nat × Nat) (chunk : List Nat) :
    Nat × Nat × Nat × Nat :=
  let r := (List.range 64).foldl (step chunk) st
  (add32 st.1 r.1, add32 st.2.1 r.2.1, add32 st.2.2.1 r.2.2.1,
   add32 st.2.2.2 r.2.2.2)

/-- Split a byte list into 64-byte chunks (`fuel` bounds the recursion;
it is called with the list's length, which suffices since every step
consumes at least one element of a non-empty list). -/
def chunksAux : Nat → List Nat → List (List Nat)
  | 0, _ => []
  | _, [] => []
  | fuel + 1, l => l.take 64 :: chunksAux fuel (l.drop 64)

/-- Split a byte list into 64-byte chunks. -/
def chunks (l : List Nat) : List (List Nat) := chunksAux l.length l

def hexDigit (n : Nat) : String :=
  String.mk ["0123456789abcdef".toList.getD n '0']

def byteHex (b : Nat) : String := hexDigit (b / 16 % 16) ++ hexDigit (b % 16)

/-- Little-endian hex rendering of one 32-bit word. -/
def wordHexLE (w : Nat) : String :=
  byteHex (w % 256) ++ byteHex (w / 256 % 256) ++ byteHex (w / 65536 % 256) ++
    byteHex (w / 16777216 % 256)

/-- The MD5 digest of a byte list, as a lowercase hex string
(the value of `crypto.createHash('md5').update(bytes).digest('hex')`). -/
def md5hex (msg : List Nat) : String :=
  let r := (chunks (pad msg)).foldl processChunk
    (0x67452301, 0xefcdab89, 0x98badcfe, 0x10325476)
  wordHexLE r.1 ++ wordHexLE r.2.1 ++ wordHexLE r.2.2.1 ++ wordHexLE r.2.2.2

end MD5

/-- UTF-8 encoding of one Unicode code point. -/
def utf8Bytes (c : Char) : List Nat :=
  let n := c.toNat
  if n < 0x80 then [n]
  else if n < 0x800 then [0xc0 + n / 64, 0x80 + n % 64]
  else if n < 0x10000 then
    [0xe0 + n / 4096, 0x80 + n / 64 % 64, 0x80 + n % 64]
  else
    [0xf0 + n / 262144, 0x80 + n / 4096 % 64, 0x80 + n / 64 % 64,
     0x80 + n % 64]

/-- UTF-8 bytes of a string, as `fs.writeFileSync`/`readFileSync` see them. -/
def strBytes (s : String) : List Nat :=
  (s.data.map utf8Bytes).flatten

/-! ### The on-disk logic file and `getLocalHash` -/

/-- The state of the logic file on disk: absent (`fs.existsSync` false),
present but unreadable (`readFileSync` throws), or present with bytes. -/
inductive DiskFile where
  | absent : DiskFile
  | unreadable : DiskFile
  | bytes (content : List Nat) : DiskFile
deriving Repr, DecidableEq

/-- `getLocalHash()`: MD5 hex digest of the logic file's bytes, or `null`
when the file is absent or reading it throws. -/
def getLocalHash : DiskFile → Option String
  | .absent => none
  | .unreadable => none
  | .bytes b => some (MD5.md5hex b)

/-! ### The logic module and `loadLogic` -/

/-- The hot-swappable logic module as the dispatcher sees it: each
capability is either present (an invocable operation) or absent.
`processBatch` receives the task payload's fields plus the progress
callback; it returns the progress updates it reports followed by either a
normal result or a thrown exception's message.  The other capabilities
return a normal result or a thrown exception's message. -/
structure LogicModule where
  processBatch : Option (JSVal → JSVal → JSVal → List JSVal × Except String JSVal)
  verifyLoginDetails : Option (JSVal → JSVal → Except String JSVal)
  getInventoryList : Option (JSVal → JSVal → Except String JSVal)
  verifyMeter : Option (JSVal → JSVal → Except String JSVal)

/-- A module with no capabilities at all. -/
def emptyModule : LogicModule := ⟨none, none, none, none⟩

/-- The guard `!logic || !logic.processBatch` in the `execute_task`
handler: the module counts as ready iff it is loaded and exposes
`processBatch`. -/
def ready : Option LogicModule → Bool
  | none => false
  | some m => m.processBatch.isSome

/-- What `require(LOGIC_PATH)` does to the file: the file may be missing,
evaluating it may throw, or it yields a module. -/
inductive ParseOutcome where
  | missing : ParseOutcome
  | raiseErr (msg : String) : ParseOutcome
  | parsed (m : LogicModule) : ParseOutcome

/-- `loadLogic()`: on a missing file or a thrown `require`, the previous
module reference is kept and `false` is returned; on a successful parse
the parsed module always replaces the reference (the assignment happens
before the capability check), and `true` is returned iff `processBatch`
is present. -/
def loadLogic : ParseOutcome → Option LogicModule → Option LogicModule × Bool
  | .missing, prev => (prev, false)
  | .raiseErr _, prev => (prev, false)
  | .parsed m, _ => (m, m.processBatch.isSome)

/-! ### The task dispatcher (`socket.on('execute_task')`) -/

/-- The message of a thrown `TypeError` when a missing capability is
invoked (`logic.<name> is not a function`). -/
def notAFunction (name : String) : String :=
  "logic." ++ name ++ " is not a function"

/-- The `catch` block's result: `{error: e.message, failed: 1}`. -/
def errFailed (e : String) : JSVal :=
  .vObj [("error", .vStr e), ("failed", .vNum 1)]

/-- One recorded capability invocation (capability plus the arguments it
was invoked with).  Accessing a missing capability throws before any
invocation happens, so it is not recorded. -/
inductive Call where
  | processBatch (userid password meters : JSVal) : Call
  | verifyLoginDetails (userid password : JSVal) : Call
  | getInventoryList (cookies limit : JSVal) : Call
  | verifyMeter (cookies meterNo : JSVal) : Call

/-- Output of the `try`/`catch` dispatch body: progress updates reported
through `sendProgress`, the final `result` value, and the capability
invocations performed in order. -/
structure DispatchOut where
  progress : List JSVal
  result : JSVal
  calls : List Call

/-- The `switch (taskType)` body together with its surrounding
`try`/`catch`.  `m` is the module read in the handler's first synchronous
stretch (the guard and the first capability access); `m2` is the module
read at the second capability access of the sequential chains (INVENTORY's
`getInventoryList`, SINGLE_CHECK's `verifyMeter`), which happens after an
`await` and therefore re-reads the mutable `logic` binding. -/
def dispatch (m m2 : LogicModule) (taskType : String) (payload : JSVal) :
    DispatchOut :=
  if taskType == "METER_POST" || taskType == "FAST_POST" then
    match m.processBatch with
    | none => ⟨[], errFailed (notAFunction "processBatch"), []⟩
    | some f =>
      let r := f (payload.prop "userid") (payload.prop "password")
        (payload.prop "meters")
      let call := Call.processBatch (payload.prop "userid")
        (payload.prop "password") (payload.prop "meters")
      match r.2 with
      | .ok v => ⟨r.1, v, [call]⟩
      | .error e => ⟨r.1, errFailed e, [call]⟩
  else if taskType == "LOGIN_CHECK" then
    match m.verifyLoginDetails with
    | none => ⟨[], errFailed (notAFunction "verifyLoginDetails"), []⟩
    | some f =>
      let call := Call.verifyLoginDetails (payload.prop "userid")
        (payload.prop "password")
      match f (payload.prop "userid") (payload.prop "password") with
      | .ok v => ⟨[], v, [call]⟩
      | .error e => ⟨[], errFailed e, [call]⟩
  else if taskType == "INVENTORY" then
    match m.verifyLoginDetails with
    | none => ⟨[], errFailed (notAFunction "verifyLoginDetails"), []⟩
    | some f =>
      let call := Call.verifyLoginDetails (payload.prop "userid")
        (payload.prop "password")
      match f (payload.prop "userid") (payload.prop "password") with
      | .error e => ⟨[], errFailed e, [call]⟩
      | .ok authInv =>
        if !(authInv.prop "success").truthy then
          ⟨[], .vObj [("error",
            .vStr ("Login Failed: " ++ (authInv.prop "message").toStr))],
            [call]⟩
        else
          match m2.getInventoryList with
          | none => ⟨[], errFailed (notAFunction "getInventoryList"), [call]⟩
          | some g =>
            let lim := jsOr (payload.prop "limit") (.vNum 50)
            let call2 := Call.getInventoryList (authInv.prop "cookies") lim
            match g (authInv.prop "cookies") lim with
            | .error e => ⟨[], errFailed e, [call, call2]⟩
            | .ok data =>
              ⟨[], .vObj [("status", .vStr "success"),
                ("count", data.lengthVal), ("data", data)], [call, call2]⟩
  else if taskType == "SINGLE_CHECK" then
    match m.verifyLoginDetails with
    | none => ⟨[], errFailed (notAFunction "verifyLoginDetails"), []⟩
    | some f =>
      let call := Call.verifyLoginDetails (payload.prop "userid")
        (payload.prop "password")
      match f (payload.prop "userid") (payload.prop "password") with
      | .error e => ⟨[], errFailed e, [call]⟩
      | .ok auth =>
        if !(auth.prop "success").truthy then
          ⟨[], .vObj [("error", .vStr "Login Failed")], [call]⟩
        else
          match m2.verifyMeter with
          | none => ⟨[], errFailed (notAFunction "verifyMeter"), [call]⟩
          | some vm =>
            let call2 := Call.verifyMeter (auth.prop "cookies")
              (payload.prop "meterNo")
            match vm (auth.prop "cookies") (payload.prop "meterNo") with
            | .error e => ⟨[], errFailed e, [call, call2]⟩
            | .ok check =>
              if (check.prop "found").truthy then
                ⟨[], .vObj [("status", .vStr "found"),
                  ("data", check.prop "data")], [call, call2]⟩
              else
                ⟨[], .vObj [("status", .vStr "not_found")], [call, call2]⟩
  else ⟨[], .vObj [("error", .vStr "Unknown Task Type")], []⟩

/-- Outbound messages emitted by a handler. -/
inductive Emit where
  | checkVersion (hash : Option String) : Emit
  | taskProgress (requestId : String) (progress : JSVal) : Emit
  | taskCompleted (requestId : String) (result : JSVal) : Emit

/-- An `execute_task` message (spec data model: `requestId` and
`taskType` are strings, the payload is an opaque map). -/
structure TaskMsg where
  requestId : String
  taskType : String
  payload : JSVal

/-- The whole `execute_task` handler.  When the module is not ready it
emits `check_version(getLocalHash())` and drops the task; otherwise it
runs the dispatch body and emits every reported progress update followed
by exactly one `task_completed`.  `m2` is the module observed at a
sequential chain's second capability access (see `dispatch`). -/
def handleExecuteTask (logic : Option LogicModule) (m2 : LogicModule)
    (disk : DiskFile) (msg : TaskMsg) : List Emit × List Call :=
  match logic with
  | none => ([.checkVersion (getLocalHash disk)], [])
  | some m =>
    if m.processBatch.isNone then ([.checkVersion (getLocalHash disk)], [])
    else
      let out := dispatch m m2 msg.taskType msg.payload
      (out.progress.map (fun p => Emit.taskProgress msg.requestId p) ++
        [.taskCompleted msg.requestId out.result], out.calls)

/-- The handler when no module replacement happens while the task runs:
every read of the `logic` binding observes the same value. -/
def handleExecuteTaskStable (logic : Option LogicModule) (disk : DiskFile)
    (msg : TaskMsg) : List Emit × List Call :=
  match logic with
  | none => handleExecuteTask none emptyModule disk msg
  | some m => handleExecuteTask (some m) m disk msg

/-- The `task_completed` emissions among a handler's output. -/
def completedOf (es : List Emit) : List Emit :=
  es.filter fun e =>
    match e with
    | .taskCompleted _ _ => true
    | _ => false

/-! ### Agent state, `connect` and `update_logic_file` handlers -/

/-- The agent's mutable state: the `logic` binding, the on-disk logic
file, and the start times of the heartbeat intervals registered so far. -/
structure AgentState where
  logic : Option LogicModule
  disk : DiskFile
  timers : List Nat

/-- The `socket.on('connect')` handler, firing at time `now`: it emits
`check_version(getLocalHash())` and registers a fresh 10-second heartbeat
interval (never clearing any previously registered one). -/
def onConnect (now : Nat) (st : AgentState) : AgentState × List Emit :=
  ({ st with timers := st.timers ++ [now] },
   [.checkVersion (getLocalHash st.disk)])

/-- The `socket.on('update_logic_file')` handler.  `writeOk` tells whether
`fs.writeFileSync` succeeds; `parse` is what `require` does to the newly
written bytes.  On a successful write the content is stored verbatim and
`loadLogic` runs; on a failed write the error is logged and the state is
untouched. -/
def onUpdateLogicFile (writeOk : Bool) (parse : List Nat → ParseOutcome)
    (content : String) (st : AgentState) : AgentState :=
  if writeOk then
    { st with
      disk := DiskFile.bytes (strBytes content),
      logic := (loadLogic (parse (strBytes content)) st.logic).1 }
  else st

/-! ### Heartbeat timers -/

/-- The heartbeat period in milliseconds (`setInterval(..., 10000)`). -/
def intervalMs : Nat := 10000

/-- How many times an interval registered at time `a` fires in the window
`(s, s + 10000]`: `setInterval` fires at `a + 10000`, `a + 20000`, .... -/
def firesIn (a s : Nat) : Nat :=
  ((Finset.range intervalMs).filter
    (fun k => a + intervalMs ≤ s + k + 1 ∧
      (s + k + 1 - a) % intervalMs = 0)).card

/-- Heartbeats emitted in the window `(s, s + 10000]` across all
registered intervals. -/
def heartbeatsInPeriod (timers : List Nat) (s : Nat) : Nat :=
  (timers.map (fun a => firesIn a s)).sum

/-! ## Theorems -/

/-- Claim C2: an `execute_task` message arriving while the logic module is
not ready (absent or lacking `processBatch`) emits no `task_completed` and
no result at all: the handler emits exactly one `check_version` carrying
the current local hash and drops the task (no capability is invoked). -/
theorem execute_task_not_ready (logic : Option LogicModule) (disk : DiskFile)
    (msg : TaskMsg) (h : ready logic = false) :
    handleExecuteTaskStable logic disk msg =
      ([.checkVersion (getLocalHash disk)], []) := by
  cases logic with
  | none => rfl
  | some m =>
    cases hpb : m.processBatch with
    | none => simp [handleExecuteTaskStable, handleExecuteTask, hpb]
    | some f => rw [ready, hpb] at h; cases h

/-- Witness for C2 at a concrete not-ready state (no module loaded). -/
theorem execute_task_not_ready_witness :
    handleExecuteTaskStable none DiskFile.absent
      ⟨"r1", "LOGIN_CHECK", .vObj []⟩ = ([.checkVersion none], []) :=
  execute_task_not_ready none DiskFile.absent
    ⟨"r1", "LOGIN_CHECK", .vObj []⟩ rfl

/-- Claim C4: a failed read (missing file) or a throwing `require` leaves
the previously loaded module reference unchanged and returns normally
(no crash); a successfully parsed module lacking `processBatch` replaces
the reference but is treated as not ready by the task guard. -/
theorem loadLogic_preserves_on_failure (prev : Option LogicModule) :
    loadLogic .missing prev = (prev, false) ∧
    (∀ e, loadLogic (.raiseErr e) prev = (prev, false)) ∧
    (∀ m, m.processBatch = none →
      loadLogic (.parsed m) prev = (some m, false) ∧
        ready (some m) = false) := by
  refine ⟨rfl, fun e => rfl, fun m hm => ⟨?_, ?_⟩⟩ <;>
    simp [loadLogic, ready, hm]

/-- Witness for C4 at concrete load outcomes. -/
theorem loadLogic_preserves_on_failure_witness :
    loadLogic (.raiseErr "SyntaxError") none = (none, false) ∧
    loadLogic (.parsed emptyModule) none = (some emptyModule, false) :=
  ⟨(loadLogic_preserves_on_failure none).2.1 "SyntaxError",
   ((loadLogic_preserves_on_failure none).2.2 emptyModule rfl).1⟩

/-- Claim C5: every connection-established event emits exactly one
`check_version` whose payload is the MD5 digest of the on-disk logic
file's bytes, or `null` when the file is absent or unreadable; the digest
is a deterministic function of the bytes (byte-identical contents yield
the same emitted hash, at whatever time and in whatever timer state the
connect happens). -/
theorem connect_emits_one_check_version (t t' : Nat) (st st' : AgentState) :
    (onConnect t st).2 = [.checkVersion (getLocalHash st.disk)] ∧
    (∀ b, st.disk = .bytes b →
      (onConnect t st).2 = [.checkVersion (some (MD5.md5hex b))]) ∧
    (st.disk = .absent → (onConnect t st).2 = [.checkVersion none]) ∧
    (st.disk = .unreadable → (onConnect t st).2 = [.checkVersion none]) ∧
    (st.disk = st'.disk → (onConnect t st).2 = (onConnect t' st').2) := by
  refine ⟨rfl, fun b hb => ?_, fun hb => ?_, fun hb => ?_, fun hd => ?_⟩
  · simp [onConnect, hb, getLocalHash]
  · simp [onConnect, hb, getLocalHash]
  · simp [onConnect, hb, getLocalHash]
  · simp [onConnect, hd]

set_option maxRecDepth 100000 in
/-- Witness for C5 at a concrete file content (digest of `"abc"`). -/
theorem connect_emits_one_check_version_witness :
    (onConnect 3 ⟨none, .bytes (strBytes "abc"), []⟩).2 =
      [.checkVersion (some "900150983cd24fb0d6963f7d28e17f72")] := by
  have hmd : MD5.md5hex (strBytes "abc") =
      "900150983cd24fb0d6963f7d28e17f72" := by decide
  have h := (connect_emits_one_check_version 3 3
    ⟨none, .bytes (strBytes "abc"), []⟩
    ⟨none, .bytes (strBytes "abc"), []⟩).2.1 (strBytes "abc") rfl
  rw [hmd] at h
  exact h

/-- Claim C6: a successful `update_logic_file(content)` stores the content
verbatim on disk, so the local hash subsequently computed from disk equals
the MD5 digest of the delivered content (round-trip convergence with the
coordinator's hash, which yields `logic_uptodate` on the re-check); a
failed write leaves the whole previous state — disk and loaded module —
untouched. -/
theorem update_logic_file_roundtrip (parse : List Nat → ParseOutcome)
    (content : String) (st : AgentState) :
    (onUpdateLogicFile true parse content st).disk =
      .bytes (strBytes content) ∧
    getLocalHash (onUpdateLogicFile true parse content st).disk =
      some (MD5.md5hex (strBytes content)) ∧
    onUpdateLogicFile false parse content st = st :=
  ⟨rfl, rfl, rfl⟩

/-! ### Heartbeat counting (C8) -/

/-- A heartbeat interval registered at or before the window start fires
exactly once in any 10-second window. -/
theorem firesIn_eq_one (a s : Nat) (h : a ≤ s) : firesIn a s = 1 := by
  have hset : (Finset.range intervalMs).filter
      (fun k => a + intervalMs ≤ s + k + 1 ∧
        (s + k + 1 - a) % intervalMs = 0) =
      {intervalMs - 1 - (s - a) % intervalMs} := by
    ext k
    simp only [Finset.mem_filter, Finset.mem_range, Finset.mem_singleton,
      intervalMs]
    omega
  rw [firesIn, hset, Finset.card_singleton]

/-- With every registered interval started by the window start, the
heartbeats per window equal the number of registered intervals. -/
theorem heartbeats_eq_timer_count (timers : List Nat) (s : Nat)
    (h : ∀ a ∈ timers, a ≤ s) :
    heartbeatsInPeriod timers s = timers.length := by
  induction timers with
  | nil => rfl
  | cons a ts ih =>
    have ha : a ≤ s := h a (List.mem_cons_self a ts)
    have hts : ∀ x ∈ ts, x ≤ s := fun x hx => h x (List.mem_cons_of_mem a hx)
    simp only [heartbeatsInPeriod, List.map_cons, List.sum_cons,
      List.length_cons, firesIn_eq_one a s ha]
    have := ih hts
    simp only [heartbeatsInPeriod] at this
    omega

/-- The agent state after a sequence of connection-established events. -/
def connectTimes (ts : List Nat) (st : AgentState) : AgentState :=
  ts.foldl (fun st t => (onConnect t st).1) st

/-- Each connect appends one timer registration. -/
theorem connectTimes_timers (ts : List Nat) (st : AgentState) :
    (connectTimes ts st).timers = st.timers ++ ts := by
  induction ts generalizing st with
  | nil => simp [connectTimes]
  | cons t ts ih =>
    simp only [connectTimes, List.foldl_cons] at ih ⊢
    rw [ih]
    simp [onConnect]

/-- Counterexample to claim C8: the heartbeat interval is registered anew
on every connect and never cleared, so after the agent has connected at
time 0 and reconnected at time 5000, two heartbeats — not one — are sent
in the 10-second period following time 5000. -/
theorem heartbeat_doubled_after_reconnect :
    heartbeatsInPeriod
      ((connectTimes [0, 5000] ⟨none, DiskFile.absent, []⟩).timers) 5000 = 2 ∧
    (2 : Nat) ≠ 1 := by
  constructor
  · have ht : (connectTimes [0, 5000]
        (⟨none, DiskFile.absent, []⟩ : AgentState)).timers = [0, 5000] := by
      rw [connectTimes_timers]; rfl
    rw [ht]
    simp only [heartbeatsInPeriod, List.map_cons, List.map_nil,
      List.sum_cons, List.sum_nil,
      firesIn_eq_one 0 5000 (by omega), firesIn_eq_one 5000 5000 (by omega)]
    omega
  · decide

/-- Claim C8 as amended: heartbeats are timer-driven, independent of task
state, but one 10-second interval is registered per connection-established
event and none is ever cleared, so the heartbeats sent per 10-second
period equal the number of connects so far, not always one. -/
theorem heartbeat_per_connect (ts : List Nat) (s : Nat) (st0 : AgentState)
    (h0 : st0.timers = []) (h : ∀ a ∈ ts, a ≤ s) :
    heartbeatsInPeriod (connectTimes ts st0).timers s = ts.length := by
  rw [connectTimes_timers, h0, List.nil_append]
  exact heartbeats_eq_timer_count ts s h

/-- Witness for amended C8: three connects by time 20000 give three
heartbeats in the following period. -/
theorem heartbeat_per_connect_witness :
    heartbeatsInPeriod
      ((connectTimes [0, 400, 20000] ⟨none, DiskFile.absent, []⟩).timers)
      20000 = 3 :=
  heartbeat_per_connect [0, 400, 20000] 20000 ⟨none, DiskFile.absent, []⟩
    rfl (by intro a ha; fin_cases ha <;> omega)

/-! ### Dispatch helpers -/

/-- With a ready module the `execute_task` handler runs the dispatch body
and emits its progress updates followed by one `task_completed`. -/
theorem handleExecuteTask_ready (m m2 : LogicModule) (disk : DiskFile)
    (msg : TaskMsg) (h : m.processBatch.isSome = true) :
    handleExecuteTask (some m) m2 disk msg =
      ((dispatch m m2 msg.taskType msg.payload).progress.map
        (fun p => Emit.taskProgress msg.requestId p) ++
        [.taskCompleted msg.requestId
          (dispatch m m2 msg.taskType msg.payload).result],
       (dispatch m m2 msg.taskType msg.payload).calls) := by
  cases hpb : m.processBatch with
  | none => rw [hpb] at h; cases h
  | some f => simp [handleExecuteTask, hpb]

/-- Progress emissions never contribute a `task_completed`. -/
theorem completedOf_progress_append (rid : String) (ps : List JSVal)
    (r : JSVal) :
    completedOf (ps.map (fun p => Emit.taskProgress rid p) ++
      [.taskCompleted rid r]) = [.taskCompleted rid r] := by
  induction ps with
  | nil => rfl
  | cons p ps _ => simp [completedOf]

/-- With a ready module, the `task_completed` emissions of the handler
are exactly one message tagged with the task's request id and carrying
the dispatch body's result. -/
theorem completedOf_ready (m m2 : LogicModule) (disk : DiskFile)
    (msg : TaskMsg) (h : m.processBatch.isSome = true) :
    completedOf (handleExecuteTask (some m) m2 disk msg).1 =
      [.taskCompleted msg.requestId
        (dispatch m m2 msg.taskType msg.payload).result] := by
  rw [handleExecuteTask_ready m m2 disk msg h]
  exact completedOf_progress_append _ _ _

/-- The first capability access of a login-gated task throws: either
`verifyLoginDetails` is missing (a `TypeError`) or calling it throws. -/
def loginThrows (m : LogicModule) (payload : JSVal) (e : String) : Prop :=
  (m.verifyLoginDetails = none ∧ e = notAFunction "verifyLoginDetails") ∨
  (∃ f, m.verifyLoginDetails = some f ∧
    f (payload.prop "userid") (payload.prop "password") = .error e)

/-- `verifyLoginDetails` returns normally with value `auth`. -/
def loginOk (m : LogicModule) (payload : JSVal) (auth : JSVal) : Prop :=
  ∃ f, m.verifyLoginDetails = some f ∧
    f (payload.prop "userid") (payload.prop "password") = .ok auth

/-- The capability invocation the task type routes to throws with message
`e` (either the capability itself throws, or accessing a missing
capability raises a `TypeError`).  `m` is the module at the first access,
`m2` the module at a sequential chain's second access. -/
def routedThrows (m m2 : LogicModule) (tt : String) (payload : JSVal)
    (e : String) : Prop :=
  ((tt = "METER_POST" ∨ tt = "FAST_POST") ∧
    ∃ f, m.processBatch = some f ∧
      (f (payload.prop "userid") (payload.prop "password")
        (payload.prop "meters")).2 = .error e) ∨
  (tt = "LOGIN_CHECK" ∧ loginThrows m payload e) ∨
  (tt = "INVENTORY" ∧ (loginThrows m payload e ∨
    ∃ auth, loginOk m payload auth ∧ (auth.prop "success").truthy = true ∧
      ((m2.getInventoryList = none ∧ e = notAFunction "getInventoryList") ∨
       ∃ g, m2.getInventoryList = some g ∧
         g (auth.prop "cookies") (jsOr (payload.prop "limit") (.vNum 50)) =
           .error e))) ∨
  (tt = "SINGLE_CHECK" ∧ (loginThrows m payload e ∨
    ∃ auth, loginOk m payload auth ∧ (auth.prop "success").truthy = true ∧
      ((m2.verifyMeter = none ∧ e = notAFunction "verifyMeter") ∨
       ∃ g, m2.verifyMeter = some g ∧
         g (auth.prop "cookies") (payload.prop "meterNo") = .error e)))

/-- A throwing routed invocation is caught and converted to the
`catch` block's result. -/
theorem dispatch_throw_result (m m2 : LogicModule) (tt : String)
    (payload : JSVal) (e : String) (h : routedThrows m m2 tt payload e) :
    (dispatch m m2 tt payload).result = errFailed e := by
  rcases h with ⟨htt, f, hf, herr⟩ | ⟨htt, hl⟩ |
    ⟨htt, hl | ⟨auth, ⟨f, hf, hok⟩, hsucc, hsec⟩⟩ |
    ⟨htt, hl | ⟨auth, ⟨f, hf, hok⟩, hsucc, hsec⟩⟩
  · rcases htt with htt | htt <;> subst htt <;> simp [dispatch, hf, herr]
  · subst htt
    rcases hl with ⟨hnone, he⟩ | ⟨f, hf, herr⟩
    · subst he; simp [dispatch, hnone]
    · simp [dispatch, hf, herr]
  · subst htt
    rcases hl with ⟨hnone, he⟩ | ⟨f, hf, herr⟩
    · subst he; simp [dispatch, hnone]
    · simp [dispatch, hf, herr]
  · subst htt
    rcases hsec with ⟨hnone, he⟩ | ⟨g, hg, herr⟩
    · subst he; simp [dispatch, hf, hok, hsucc, hnone]
    · simp [dispatch, hf, hok, hsucc, hg, herr]
  · subst htt
    rcases hl with ⟨hnone, he⟩ | ⟨f, hf, herr⟩
    · subst he; simp [dispatch, hnone]
    · simp [dispatch, hf, herr]
  · subst htt
    rcases hsec with ⟨hnone, he⟩ | ⟨g, hg, herr⟩
    · subst he; simp [dispatch, hf, hok, hsucc, hnone]
    · simp [dispatch, hf, hok, hsucc, hg, herr]

/-- Claim C1: while the module is ready, every `execute_task` message
yields exactly one `task_completed` tagged with the task's request id,
and whenever the routed capability invocation throws, the exception is
caught at the dispatch boundary and the emitted result is exactly
`{error: message, failed: 1}`; the handler itself is a total function,
so no failure propagates past it. -/
theorem task_completed_exactly_once (m m2 : LogicModule) (disk : DiskFile)
    (msg : TaskMsg) (h : m.processBatch.isSome = true) :
    (∃ r, completedOf (handleExecuteTask (some m) m2 disk msg).1 =
      [.taskCompleted msg.requestId r]) ∧
    ∀ e, routedThrows m m2 msg.taskType msg.payload e →
      completedOf (handleExecuteTask (some m) m2 disk msg).1 =
        [.taskCompleted msg.requestId (errFailed e)] := by
  constructor
  · exact ⟨_, completedOf_ready m m2 disk msg h⟩
  · intro e he
    rw [completedOf_ready m m2 disk msg h,
      dispatch_throw_result m m2 msg.taskType msg.payload e he]

/-- A ready module whose `processBatch` always throws. -/
def mThrow : LogicModule :=
  ⟨some (fun _ _ _ => ([], .error "boom")), none, none, none⟩

/-- Witness for C1: a concrete throwing `METER_POST` dispatch emits one
`task_completed` with the caught-exception result. -/
theorem task_completed_exactly_once_witness :
    completedOf (handleExecuteTask (some mThrow) mThrow DiskFile.absent
      ⟨"r1", "METER_POST", .vObj []⟩).1 =
      [.taskCompleted "r1" (errFailed "boom")] :=
  (task_completed_exactly_once mThrow mThrow DiskFile.absent
    ⟨"r1", "METER_POST", .vObj []⟩ rfl).2 "boom"
    (Or.inl ⟨Or.inl rfl, fun _ _ _ => ([], .error "boom"), rfl, rfl⟩)

/-- Claim C10: the readiness guard probes only `processBatch`, so a module
exposing `processBatch` but lacking `verifyLoginDetails`,
`getInventoryList` and `verifyMeter` is still dispatched against: a
`LOGIN_CHECK`, `INVENTORY` or `SINGLE_CHECK` task is executed (no
`check_version` re-request, no silent drop) and terminates via
`task_completed` with the caught `TypeError` as `{error: message,
failed: 1}`. -/
theorem missing_capability_caught (m m2 : LogicModule) (disk : DiskFile)
    (msg : TaskMsg) (hpb : m.processBatch.isSome = true)
    (hvl : m.verifyLoginDetails = none)
    (_hgi : m.getInventoryList = none) (_hvm : m2.verifyMeter = none)
    (htt : msg.taskType = "LOGIN_CHECK" ∨ msg.taskType = "INVENTORY" ∨
      msg.taskType = "SINGLE_CHECK") :
    (handleExecuteTask (some m) m2 disk msg).1 =
      [.taskCompleted msg.requestId
        (errFailed (notAFunction "verifyLoginDetails"))] := by
  rcases htt with h | h | h <;>
    (rw [handleExecuteTask_ready m m2 disk msg hpb]; simp [dispatch, h, hvl])

/-- A module exposing only `processBatch` (which returns normally). -/
def mOnlyBatch : LogicModule :=
  ⟨some (fun _ _ _ => ([], .ok .vNull)), none, none, none⟩

/-- Witness for C10: a concrete `SINGLE_CHECK` against a module exposing
only `processBatch` completes with the caught `TypeError`. -/
theorem missing_capability_caught_witness :
    (handleExecuteTask (some mOnlyBatch) mOnlyBatch DiskFile.absent
      ⟨"r2", "SINGLE_CHECK", .vObj []⟩).1 =
      [.taskCompleted "r2"
        (errFailed "logic.verifyLoginDetails is not a function")] :=
  missing_capability_caught mOnlyBatch mOnlyBatch DiskFile.absent
    ⟨"r2", "SINGLE_CHECK", .vObj []⟩ rfl rfl rfl rfl (Or.inr (Or.inr rfl))

/-! ### INVENTORY (C3), SINGLE_CHECK (C9) and the module re-read (C7) -/

/-- A `processBatch` capability that returns `null` with no progress. -/
def pbNull : JSVal → JSVal → JSVal → List JSVal × Except String JSVal :=
  fun _ _ _ => ([], .ok .vNull)

/-- A `verifyLoginDetails` capability that always succeeds with cookie
`"ck"`. -/
def vlOkCk : JSVal → JSVal → Except String JSVal :=
  fun _ _ =>
    .ok (.vObj [("success", .vBool true), ("cookies", .vStr "ck")])

/-- A module whose `getInventoryList` returns the limit argument it was
invoked with, so the dispatched value is observable in the result. -/
def mLimitProbe : LogicModule :=
  ⟨some pbNull, some vlOkCk, some (fun _ lim => .ok (.vArr [lim])), none⟩

/-- Counterexample to claim C3: for an `INVENTORY` payload whose `limit`
is the number `0` (present, not absent), `getInventoryList` is invoked
with `50`, not with `payload.limit` — the code's `payload.limit || 50`
also replaces a present falsy limit, unlike the claim's
`payload.limit` with a default of `50`. -/
theorem inventory_limit_counterexample :
    JSVal.prop (.vObj [("limit", .vNum 0)]) "limit" = .vNum 0 ∧
    (dispatch mLimitProbe mLimitProbe "INVENTORY"
      (.vObj [("limit", .vNum 0)])).calls =
      [Call.verifyLoginDetails .vUndefined .vUndefined,
       Call.getInventoryList (.vStr "ck") (.vNum 50)] ∧
    JSVal.vNum 50 ≠ JSVal.vNum 0 := by
  refine ⟨rfl, rfl, ?_⟩
  simp

/-- Claim C3 as amended: for an `INVENTORY` task, a failing login yields
exactly `{error: "Login Failed: " + message}` and `getInventoryList` is
never invoked; a successful login invokes `getInventoryList` with the
login cookies and with `payload.limit` when that value is truthy
(present and non-zero), otherwise `50`, wrapping the result as
`{status: "success", count, data}`. -/
theorem inventory_login_gate (m : LogicModule) (disk : DiskFile)
    (msg : TaskMsg) (hpb : m.processBatch.isSome = true)
    (htt : msg.taskType = "INVENTORY")
    (f : JSVal → JSVal → Except String JSVal)
    (hf : m.verifyLoginDetails = some f) :
    (∀ auth,
      f (msg.payload.prop "userid") (msg.payload.prop "password") =
        .ok auth →
      (auth.prop "success").truthy = false →
      handleExecuteTask (some m) m disk msg =
        ([.taskCompleted msg.requestId
          (.vObj [("error",
            .vStr ("Login Failed: " ++ (auth.prop "message").toStr))])],
         [Call.verifyLoginDetails (msg.payload.prop "userid")
           (msg.payload.prop "password")])) ∧
    (∀ auth g data,
      f (msg.payload.prop "userid") (msg.payload.prop "password") =
        .ok auth →
      (auth.prop "success").truthy = true →
      m.getInventoryList = some g →
      g (auth.prop "cookies")
        (jsOr (msg.payload.prop "limit") (.vNum 50)) = .ok data →
      handleExecuteTask (some m) m disk msg =
        ([.taskCompleted msg.requestId
          (.vObj [("status", .vStr "success"), ("count", data.lengthVal),
            ("data", data)])],
         [Call.verifyLoginDetails (msg.payload.prop "userid")
            (msg.payload.prop "password"),
          Call.getInventoryList (auth.prop "cookies")
            (jsOr (msg.payload.prop "limit") (.vNum 50))])) := by
  constructor
  · intro auth hok hfail
    rw [handleExecuteTask_ready m m disk msg hpb]
    simp [dispatch, htt, hf, hok, hfail]
  · intro auth g data hok hsucc hg hdata
    rw [handleExecuteTask_ready m m disk msg hpb]
    simp [dispatch, htt, hf, hok, hsucc, hg, hdata]

/-- A module whose login always fails with message `"Bad password"`. -/
def mLoginFail : LogicModule :=
  ⟨some pbNull,
   some (fun _ _ => .ok (.vObj [("success", .vBool false),
     ("message", .vStr "Bad password")])), none, none⟩

/-- Witness for amended C3: concrete failing login on `INVENTORY`. -/
theorem inventory_login_gate_witness :
    handleExecuteTask (some mLoginFail) mLoginFail DiskFile.absent
      ⟨"r3", "INVENTORY", .vObj []⟩ =
      ([.taskCompleted "r3"
        (.vObj [("error", .vStr "Login Failed: Bad password")])],
       [Call.verifyLoginDetails .vUndefined .vUndefined]) :=
  (inventory_login_gate mLoginFail DiskFile.absent
    ⟨"r3", "INVENTORY", .vObj []⟩ rfl rfl _ rfl).1 _ rfl rfl

/-- Claim C9: a `SINGLE_CHECK` task invokes `verifyLoginDetails` first;
on a non-success login the result is exactly `{error: "Login Failed"}`
and `verifyMeter` is never invoked; on success, `verifyMeter` decides
between exactly `{status: "not_found"}` and exactly
`{status: "found", data}` with the check's data. -/
theorem single_check_results (m : LogicModule) (disk : DiskFile)
    (msg : TaskMsg) (hpb : m.processBatch.isSome = true)
    (htt : msg.taskType = "SINGLE_CHECK")
    (f : JSVal → JSVal → Except String JSVal)
    (hf : m.verifyLoginDetails = some f) :
    (∀ auth,
      f (msg.payload.prop "userid") (msg.payload.prop "password") =
        .ok auth →
      (auth.prop "success").truthy = false →
      handleExecuteTask (some m) m disk msg =
        ([.taskCompleted msg.requestId
          (.vObj [("error", .vStr "Login Failed")])],
         [Call.verifyLoginDetails (msg.payload.prop "userid")
           (msg.payload.prop "password")])) ∧
    (∀ auth vm check,
      f (msg.payload.prop "userid") (msg.payload.prop "password") =
        .ok auth →
      (auth.prop "success").truthy = true →
      m.verifyMeter = some vm →
      vm (auth.prop "cookies") (msg.payload.prop "meterNo") = .ok check →
      (check.prop "found").truthy = false →
      handleExecuteTask (some m) m disk msg =
        ([.taskCompleted msg.requestId
          (.vObj [("status", .vStr "not_found")])],
         [Call.verifyLoginDetails (msg.payload.prop "userid")
            (msg.payload.prop "password"),
          Call.verifyMeter (auth.prop "cookies")
            (msg.payload.prop "meterNo")])) ∧
    (∀ auth vm check,
      f (msg.payload.prop "userid") (msg.payload.prop "password") =
        .ok auth →
      (auth.prop "success").truthy = true →
      m.verifyMeter = some vm →
      vm (auth.prop "cookies") (msg.payload.prop "meterNo") = .ok check →
      (check.prop "found").truthy = true →
      handleExecuteTask (some m) m disk msg =
        ([.taskCompleted msg.requestId
          (.vObj [("status", .vStr "found"),
            ("data", check.prop "data")])],
         [Call.verifyLoginDetails (msg.payload.prop "userid")
            (msg.payload.prop "password"),
          Call.verifyMeter (auth.prop "cookies")
            (msg.payload.prop "meterNo")])) := by
  refine ⟨?_, ?_, ?_⟩
  · intro auth hok hfail
    rw [handleExecuteTask_ready m m disk msg hpb]
    simp [dispatch, htt, hf, hok, hfail]
  · intro auth vm check hok hsucc hvm hcheck hnf
    rw [handleExecuteTask_ready m m disk msg hpb]
    simp [dispatch, htt, hf, hok, hsucc, hvm, hcheck, hnf]
  · intro auth vm check hok hsucc hvm hcheck hfound
    rw [handleExecuteTask_ready m m disk msg hpb]
    simp [dispatch, htt, hf, hok, hsucc, hvm, hcheck, hfound]

/-- A module whose `verifyMeter` reports the meter as not found. -/
def mMeterMiss : LogicModule :=
  ⟨some pbNull, some vlOkCk, none,
   some (fun _ _ => .ok (.vObj [("found", .vBool false)]))⟩

/-- Witness for C9: concrete successful login with a not-found meter. -/
theorem single_check_results_witness :
    handleExecuteTask (some mMeterMiss) mMeterMiss DiskFile.absent
      ⟨"r4", "SINGLE_CHECK", .vObj [("meterNo", .vStr "M-1")]⟩ =
      ([.taskCompleted "r4" (.vObj [("status", .vStr "not_found")])],
       [Call.verifyLoginDetails .vUndefined .vUndefined,
        Call.verifyMeter (.vStr "ck") (.vStr "M-1")]) :=
  (single_check_results mMeterMiss DiskFile.absent
    ⟨"r4", "SINGLE_CHECK", .vObj [("meterNo", .vStr "M-1")]⟩
    rfl rfl _ rfl).2.1 _ _ _ rfl rfl rfl rfl rfl

/-- A module whose `getInventoryList` returns the empty inventory. -/
def mInvA : LogicModule :=
  ⟨some pbNull, some vlOkCk, some (fun _ _ => .ok (.vArr [])), none⟩

/-- A module whose `getInventoryList` returns a one-element inventory. -/
def mInvB : LogicModule :=
  ⟨some pbNull, some vlOkCk,
   some (fun _ _ => .ok (.vArr [.vStr "m1"])), none⟩

/-- Counterexample to claim C7: an `INVENTORY` task dispatched against
`mInvA` whose `logic` binding is replaced by `mInvB` before the second
capability access completes with `mInvB`'s inventory — the replacement
changes which module the later invocation runs against, so the outcome
differs from the run without replacement. -/
theorem module_swap_observed :
    (handleExecuteTask (some mInvA) mInvB DiskFile.absent
      ⟨"r7", "INVENTORY", .vObj []⟩).1 =
      [.taskCompleted "r7" (.vObj [("status", .vStr "success"),
        ("count", .vNum 1), ("data", .vArr [.vStr "m1"])])] ∧
    (handleExecuteTask (some mInvA) mInvA DiskFile.absent
      ⟨"r7", "INVENTORY", .vObj []⟩).1 =
      [.taskCompleted "r7" (.vObj [("status", .vStr "success"),
        ("count", .vNum 0), ("data", .vArr [])])] ∧
    handleExecuteTask (some mInvA) mInvB DiskFile.absent
      ⟨"r7", "INVENTORY", .vObj []⟩ ≠
      handleExecuteTask (some mInvA) mInvA DiskFile.absent
        ⟨"r7", "INVENTORY", .vObj []⟩ := by
  refine ⟨rfl, rfl, fun h => ?_⟩
  have h1 := congrArg Prod.fst h
  have e1 : (handleExecuteTask (some mInvA) mInvB DiskFile.absent
      ⟨"r7", "INVENTORY", .vObj []⟩).1 =
      [.taskCompleted "r7" (.vObj [("status", .vStr "success"),
        ("count", .vNum 1), ("data", .vArr [.vStr "m1"])])] := rfl
  have e2 : (handleExecuteTask (some mInvA) mInvA DiskFile.absent
      ⟨"r7", "INVENTORY", .vObj []⟩).1 =
      [.taskCompleted "r7" (.vObj [("status", .vStr "success"),
        ("count", .vNum 0), ("data", .vArr [])])] := rfl
  rw [e1, e2] at h1
  simp at h1

/-- Claim C7 as amended: the handler re-reads the mutable `logic` binding
at each capability access, so while the guard and the first invocation
use the module observed at dispatch time, the second invocation of
`INVENTORY`'s sequential chain runs against whatever module is current at
that access: its result and recorded invocation come from `m2`,
irrespective of the dispatch-time module's own capability. -/
theorem second_access_uses_current_module (m m2 : LogicModule)
    (disk : DiskFile) (msg : TaskMsg) (hpb : m.processBatch.isSome = true)
    (htt : msg.taskType = "INVENTORY")
    (f : JSVal → JSVal → Except String JSVal)
    (hf : m.verifyLoginDetails = some f)
    (auth : JSVal)
    (hok : f (msg.payload.prop "userid") (msg.payload.prop "password") =
      .ok auth)
    (hsucc : (auth.prop "success").truthy = true)
    (g : JSVal → JSVal → Except String JSVal)
    (hg : m2.getInventoryList = some g)
    (data : JSVal)
    (hdata : g (auth.prop "cookies")
      (jsOr (msg.payload.prop "limit") (.vNum 50)) = .ok data) :
    handleExecuteTask (some m) m2 disk msg =
      ([.taskCompleted msg.requestId
        (.vObj [("status", .vStr "success"), ("count", data.lengthVal),
          ("data", data)])],
       [Call.verifyLoginDetails (msg.payload.prop "userid")
          (msg.payload.prop "password"),
        Call.getInventoryList (auth.prop "cookies")
          (jsOr (msg.payload.prop "limit") (.vNum 50))]) := by
  rw [handleExecuteTask_ready m m2 disk msg hpb]
  simp [dispatch, htt, hf, hok, hsucc, hg, hdata]

/-- Witness for amended C7: the concrete swapped run from `mInvA` to
`mInvB`. -/
theorem second_access_uses_current_module_witness :
    handleExecuteTask (some mInvA) mInvB DiskFile.absent
      ⟨"r8", "INVENTORY", .vObj []⟩ =
      ([.taskCompleted "r8" (.vObj [("status", .vStr "success"),
        ("count", .vNum 1), ("data", .vArr [.vStr "m1"])])],
       [Call.verifyLoginDetails .vUndefined .vUndefined,
        Call.getInventoryList (.vStr "ck") (.vNum 50)]) :=
  second_access_uses_current_module mInvA mInvB DiskFile.absent
    ⟨"r8", "INVENTORY", .vObj []⟩ rfl rfl _ rfl _ rfl rfl _ rfl _ rfl

end Worker
